import Mathlib

/-!
Shallow embedding of `src/heteroflow/core/graph.hpp` (namespace `hf`):
the `Node` class of the Heteroflow task-graph substrate, with its
tagged-variant task payload, dependency-edge bookkeeping (`_precede`),
union-find device-affinity fields (`_root`, `_union`), classification
predicates, the `DeviceGroup` struct, and the `dump` output format.

Nodes are identified by their address; we model addresses as `Nat` and a
graph state as a total map from addresses to node records.  Pointers held
inside payloads (`Node* source` etc.) become `Option Nat`.  The
`std::function` members of the payload structs carry no observable data at
this layer and are omitted; every other payload field is kept.
-/

namespace Heteroflow

/-- The five payload structs of `nstd::variant<Host, Pull, Push, Kernel,
Transfer>` inside `hf::Node`, keeping the data members other than the
`std::function` callables (callables carry no data observable here).
Constructor order matches the variant's alternative order. -/
inductive Handle where
  | host : Handle
  | pull (device : Int) (d_data : Option Nat) (d_size : Nat) : Handle
  | push (source : Option Nat) : Handle
  | kernel (device : Int) (sources : List Nat) : Handle
  | transfer (source : Option Nat) (target : Option Nat) : Handle
deriving DecidableEq, Repr

/-- Source `_handle.index()`: the active alternative's index in
`nstd::variant<Host, Pull, Push, Kernel, Transfer>`; equals the constants
`HOST_IDX = 0`, `PULL_IDX = 1`, `PUSH_IDX = 2`, `KERNEL_IDX = 3`,
`TRANSFER_IDX = 4` of the source. -/
def Handle.index : Handle → Nat
  | .host => 0
  | .pull _ _ _ => 1
  | .push _ => 2
  | .kernel _ _ => 3
  | .transfer _ _ => 4

/-- Source `Node::DeviceGroup`: two atomic ints with in-class initializers
`device_id {-1}` and `num_tasks {0}`. -/
structure DeviceGroup where
  device_id : Int := -1
  num_tasks : Int := 0
deriving DecidableEq, Repr

/-- The data members of one `hf::Node`.  `_parent` is a `Node*`
initialized to `this`, so a fresh node at address `i` has `parent = i`;
`_tree_size` is an `int` initialized to 1; `_num_dependents` is an
`std::atomic<int>` initialized to 0; `_group` and `_topology` are
pointers initialized to `nullptr`. -/
structure NodeData where
  name : String
  handle : Handle
  successors : List Nat
  dependents : List Nat
  num_dependents : Int
  parent : Nat
  tree_size : Int
  group : Option Nat
  topology : Option Nat
deriving Repr

/-- A graph state: the node record stored at each address. -/
abbrev State := Nat → NodeData

/-- Overwrite the node record at address `i`. -/
def update (s : State) (i : Nat) (d : NodeData) : State :=
  fun j => if j = i then d else s j

/-- A freshly constructed node at address `i` (constructor plus the
in-class initializers: empty name, empty adjacency lists, counter 0,
`_parent = this`, `_tree_size = 1`, null group and topology). -/
def initNode (h : Handle) (i : Nat) : NodeData :=
  { name := ""
    handle := h
    successors := []
    dependents := []
    num_dependents := 0
    parent := i
    tree_size := 1
    group := none
    topology := none }

/-- A population of freshly constructed nodes, one per address, with
payload chosen by `h`. -/
def initState (h : Nat → Handle) : State :=
  fun i => initNode (h i) i

namespace Node

/-! ### Classification predicates (`graph.hpp` lines 233–261) -/

/-- Source `Node::is_host`: `_handle.index() == HOST_IDX`. -/
def is_host (n : NodeData) : Bool := n.handle.index == 0

/-- Source `Node::is_pull`: `_handle.index() == PULL_IDX`. -/
def is_pull (n : NodeData) : Bool := n.handle.index == 1

/-- Source `Node::is_push`: `_handle.index() == PUSH_IDX`. -/
def is_push (n : NodeData) : Bool := n.handle.index == 2

/-- Source `Node::is_kernel`: `_handle.index() == KERNEL_IDX`. -/
def is_kernel (n : NodeData) : Bool := n.handle.index == 3

/-- Source `Node::is_transfer`: `_handle.index() == TRANSFER_IDX`. -/
def is_transfer (n : NodeData) : Bool := n.handle.index == 4

/-- Source `Node::is_device`: `is_push() || is_pull() || is_kernel() || is_transfer()`. -/
def is_device (n : NodeData) : Bool :=
  is_push n || is_pull n || is_kernel n || is_transfer n

/-! ### Dependency-edge bookkeeping (`Node::_precede`, lines 160–164) -/

/-- Source `Node::_precede(Node* rhs)` called as `u->_precede(v)`:
`_successors.push_back(rhs); rhs->_dependents.push_back(this);
rhs->_num_dependents.fetch_add(1, relaxed);`. -/
def precede (s : State) (u v : Nat) : State :=
  let s1 := update s u { s u with successors := (s u).successors ++ [v] }
  let s2 := update s1 v { s1 v with dependents := (s1 v).dependents ++ [u] }
  update s2 v { s2 v with num_dependents := (s2 v).num_dependents + 1 }

/-- Fold a construction sequence of `precede` calls `(u, v)`. -/
def applyPrecedes (s : State) : List (Nat × Nat) → State
  | [] => s
  | (u, v) :: rest => applyPrecedes (precede s u v) rest

/-! ### Union-find (`Node::_root` lines 264–271, `Node::_union` 275–297) -/

/-- The loop body of `Node::_root` called on node `x`, with explicit fuel.
The C++ is
```
auto ptr = this;
while(ptr != _parent) { _parent = _parent->_parent; ptr = _parent; }
return ptr;
```
Note that `_parent` always means `this->_parent` (the member of `x`), not
`ptr->_parent`.  `fuel` bounds the number of guard evaluations; `none`
means the fuel ran out with the guard still true. -/
def rootLoop (s : State) (x : Nat) : Nat → Nat → Option (Nat × State)
  | _, 0 => none
  | ptr, fuel + 1 =>
    if ptr ≠ (s x).parent then
      let g := (s ((s x).parent)).parent
      rootLoop (update s x { s x with parent := g }) x g fuel
    else
      some (ptr, s)

/-- Source `Node::_root()` on node `x`: since the loop assigns `ptr = _parent`
right after updating `this->_parent`, the guard `ptr != _parent` is false
after one iteration, so the loop runs at most once (see
`rootLoop_eq_root`): a node that is its own parent is returned as is;
otherwise `x._parent` is overwritten with its grandparent, which is
returned. -/
def root (s : State) (x : Nat) : Nat × State :=
  if x = (s x).parent then (x, s)
  else
    let g := (s ((s x).parent)).parent
    (g, update s x { s x with parent := g })

/-- Source `Node::_union(Node* y)` called as `x->_union(y)`.  Returns `none` when
the defensive `assert(xroot != yroot)` fires (the assertion failure),
otherwise the updated state. -/
def union (s : State) (x y : Nat) : Option State :=
  if (s x).parent = (s y).parent then some s
  else
    let p1 := root s x
    let xroot := p1.1
    let p2 := root p1.2 y
    let yroot := p2.1
    let s2 := p2.2
    if xroot = yroot then none
    else
      let xrank := (s2 xroot).tree_size
      let yrank := (s2 yroot).tree_size
      if xrank < yrank then
        some (update (update s2 xroot { s2 xroot with parent := yroot })
          yroot { s2 yroot with tree_size := yrank + xrank })
      else
        some (update (update s2 yroot { s2 yroot with parent := xroot })
          xroot { s2 xroot with tree_size := xrank + yrank })

/-- Fold a construction sequence of `union` calls `(x, y)`; `none` as soon
as one call's assertion fires. -/
def applyUnions (s : State) : List (Nat × Nat) → Option State
  | [] => some s
  | (x, y) :: rest => (union s x y).bind (fun s1 => applyUnions s1 rest)

/-! ### Visualization (`Node::dump`, lines 300–342) -/

/-- The attribute text the `switch (_handle.index())` of `Node::dump`
emits for variant index `i` (`default:` emits nothing). -/
def colorAttr : Nat → String
  | 1 => " style=filled fillcolor=\"cyan\""
  | 2 => " style=filled fillcolor=\"springgreen\""
  | 3 => " style=filled fillcolor=\"black\" fontcolor=\"white\""
  | 4 => " style=filled fillcolor=\"coral\""
  | _ => ""

/-- Source `Node::dump(std::ostream&)` on the node at address `i`.  The C++
streams the pointer value `this`; `addr` renders an address the way
`operator<<` would. -/
def dump (addr : Nat → String) (s : State) (i : Nat) : String :=
  let n := s i
  "p" ++ addr i ++ "[label=\"" ++
    (if n.name = "" then "p" ++ addr i ++ "\"" else n.name ++ "\"") ++
    colorAttr n.handle.index ++ "];\n" ++
    String.join (n.successors.map (fun t => "p" ++ addr i ++ " -> " ++ "p" ++ addr t ++ ";\n"))

end Node

/-- Modelled from the spec: the `claim` operation on a `DeviceGroup` is not
in the shown source (`graph.hpp` only declares the struct with its two
atomic fields, lines 66–69).  §4.4 specifies it: if the group's device id
still holds the unassigned sentinel −1, atomically install
`proposedDevice` and return it; if already assigned, ignore the proposal
and return the installed value.  The whole test-and-set is one atomic
step, so an interleaving of concurrent calls is a sequential order of
these steps. -/
def DeviceGroup.claim (g : DeviceGroup) (proposed : Int) : Int × DeviceGroup :=
  if g.device_id = -1 then (proposed, { g with device_id := proposed })
  else (g.device_id, g)

/-- One interleaving of concurrent `claim` calls: run the atomic steps in
sequence, collecting each call's return value and the final group. -/
def runClaims (g : DeviceGroup) : List Int → List Int × DeviceGroup
  | [] => ([], g)
  | p :: ps =>
    let r := DeviceGroup.claim g p
    let rest := runClaims r.2 ps
    (r.1 :: rest.1, rest.2)

/-! ### Spec-side definitions, written from the spec's words, used only on
the right-hand side of refinement statements -/

/-- The root a full walk of the parent chain from `x` reaches (the spec's
notion of the true representative), with fuel bounding the walk. -/
def trueRoot : Nat → State → Nat → Nat
  | 0, _, x => x
  | fuel + 1, s, x => if (s x).parent = x then x else trueRoot fuel s ((s x).parent)

/-- Spec-side classification: the payload kind is Pull, Push, Transfer or
Kernel (a device kind), as opposed to Host. -/
def Handle.isDeviceKind : Handle → Bool
  | .pull _ _ _ => true
  | .push _ => true
  | .transfer _ _ => true
  | .kernel _ _ => true
  | .host => false

/-- Spec-side fill-color table, keyed to the payload kind: Pull cyan, Push
springgreen, Kernel black fill with white font, Transfer coral, Host no
style attributes. -/
def kindColor : Handle → String
  | .pull _ _ _ => " style=filled fillcolor=\"cyan\""
  | .push _ => " style=filled fillcolor=\"springgreen\""
  | .kernel _ _ => " style=filled fillcolor=\"black\" fontcolor=\"white\""
  | .transfer _ _ => " style=filled fillcolor=\"coral\""
  | .host => ""

/-- Spec-side declaration line `p<address>[label="<name-or-address>" ...];`
with the node's name as the label when non-empty and `p<address>`
otherwise. -/
def declLine (addr : Nat → String) (s : State) (i : Nat) : String :=
  "p" ++ addr i ++ "[label=\"" ++
    (if (s i).name = "" then "p" ++ addr i else (s i).name) ++ "\"" ++
    kindColor (s i).handle ++ "];\n"

/-- Spec-side edge line `p<address> -> p<successor-address>;`. -/
def edgeLine (addr : Nat → String) (i t : Nat) : String :=
  "p" ++ addr i ++ " -> p" ++ addr t ++ ";\n"

/-- Spec-side rendering of a node: one declaration line, then one edge
line per successor, in successor-list order. -/
def dumpSpec (addr : Nat → String) (s : State) (i : Nat) : String :=
  declLine addr s i ++ String.join ((s i).successors.map (edgeLine addr i))

/-- The amended C4 contract, written from the amended claim's words:
`union(x, y)` is a no-op exactly when `x` and `y` currently hold equal
parent pointers; otherwise both `_root` results are computed (with their
compression writes), the distinct-roots assertion fires when they
coincide, and otherwise the result with the smaller tree-size counter is
attached under the one with the larger counter (a tie attaches `y`'s
under `x`'s), whose counter grows by the smaller one's size. -/
def unionAmendedSpec (s : State) (x y : Nat) : Option State :=
  if (s x).parent = (s y).parent then some s
  else
    let xr := Node.root s x
    let yr := Node.root xr.2 y
    if xr.1 = yr.1 then none
    else
      let s2 := yr.2
      let small := if (s2 xr.1).tree_size < (s2 yr.1).tree_size then xr.1 else yr.1
      let large := if (s2 xr.1).tree_size < (s2 yr.1).tree_size then yr.1 else xr.1
      let s3 := update s2 small { s2 small with parent := large }
      some (update s3 large
        { s3 large with
          tree_size := (s2 large).tree_size + (s2 small).tree_size })

/-! ### Concrete scenarios -/

/-- A population of freshly constructed host nodes (the payload kind is
irrelevant to the union-find and edge fields). -/
def hostNodes : State := initState (fun _ => Handle.host)

/-- Seven weighted-union calls over eight singleton nodes after which the
parent chain of node 7 is 7 → 6 → 4 → 0: two size-4 trees of depth 2 are
built and then merged. -/
def depth3Calls : List (Nat × Nat) :=
  [(0, 1), (2, 3), (0, 2), (4, 5), (6, 7), (4, 6), (0, 4)]

/-- Three union calls merging nodes 0, 1, 2, 3 into one set inside which
nodes 3 and 1 hold different parent pointers (3 → 2 → 0 and 1 → 0). -/
def sameSetCalls : List (Nat × Nat) := [(0, 1), (2, 3), (0, 2)]

/-! ### Helper lemmas -/

/-- The loop of `Node::_root` evaluates its guard at most twice: `rootLoop`
with any fuel ≥ 2 terminates and agrees with `Node.root`. -/
theorem rootLoop_eq_root (s : State) (x : Nat) (fuel : Nat) :
    Node.rootLoop s x x (fuel + 2) = some (Node.root s x) := by
  unfold Node.rootLoop Node.root
  by_cases h : x = (s x).parent
  · simp [← h]
  · simp only [if_neg (Ne.symm h), ne_eq, h, not_false_iff, if_pos]
    unfold Node.rootLoop
    simp [update]

theorem update_self (s : State) (i : Nat) (d : NodeData) : update s i d i = d := by
  simp [update]

theorem update_other (s : State) (i j : Nat) (d : NodeData) (h : j ≠ i) :
    update s i d j = s j := by
  simp [update, h]

/-- What one `precede(a, b)` call leaves at address `u` (covering the
aliased cases `u = a`, `u = b`, `a = b`). -/
theorem precede_apply (s : State) (a b u : Nat) :
    (Node.precede s a b) u =
      { s u with
        successors := if u = a then (s u).successors ++ [b] else (s u).successors
        dependents := if u = b then (s u).dependents ++ [a] else (s u).dependents
        num_dependents :=
          if u = b then (s u).num_dependents + 1 else (s u).num_dependents } := by
  rcases eq_or_ne u a with rfl | ha <;> rcases eq_or_ne u b with rfl | hb <;>
    simp_all [Node.precede, update]

/-- Occurrence counts after a sequence of `precede` calls, generalized
over the start state. -/
theorem applyPrecedes_counts (calls : List (Nat × Nat)) :
    ∀ (s : State) (u v : Nat),
      ((Node.applyPrecedes s calls) u).successors.count v
          = (s u).successors.count v + calls.count (u, v) ∧
      ((Node.applyPrecedes s calls) v).dependents.count u
          = (s v).dependents.count u + calls.count (u, v) ∧
      ((Node.applyPrecedes s calls) v).num_dependents
          = (s v).num_dependents + (calls.countP (fun c => c.2 == v) : Nat) := by
  induction calls with
  | nil => intro s u v; simp [Node.applyPrecedes]
  | cons c rest ih =>
    intro s u v
    obtain ⟨a, b⟩ := c
    have h := ih (Node.precede s a b) u v
    simp only [Node.applyPrecedes] at h ⊢
    rw [h.1, h.2.1, h.2.2]
    simp only [precede_apply, List.count_cons, List.countP_cons]
    refine ⟨?_, ?_, ?_⟩ <;> split_ifs <;>
      simp_all [List.count_append, List.count_singleton', Prod.ext_iff] <;> omega

/-- Once a device id other than the sentinel is installed, every further
`claim` returns it and leaves the group unchanged. -/
theorem runClaims_assigned (ps : List Int) :
    ∀ g : DeviceGroup, g.device_id ≠ -1 →
      runClaims g ps = (ps.map (fun _ => g.device_id), g) := by
  induction ps with
  | nil => intro g _; simp [runClaims]
  | cons p ps ih =>
    intro g h
    simp [runClaims, DeviceGroup.claim, h, ih g h]

/-- Regrouping one literal append: the code streams `" -> "` and `"p"`
separately where the output format reads `" -> p"`. -/
theorem arrow_p_append (t : String) : " -> " ++ ("p" ++ t) = " -> p" ++ t := by
  rw [← String.append_assoc]; rfl

/-! ### The claims -/

/-- C1.  The claim states that `find(X)` (`Node::_root`) returns the true
root of X's tree, walking the entire parent chain, and never returns an
intermediate ancestor.  The code violates this: in the forest produced by
`depth3Calls` the parent chain of node 7 is 7 → 6 → 4 → 0, so a full walk
(`trueRoot`) reaches 0, yet `Node.root` on node 7 returns 4 — an
intermediate ancestor whose own parent is 0, not itself — because the
loop of `Node::_root` updates `this->_parent` instead of a cursor and
therefore exits after one compression hop. -/
theorem c1_root_stops_at_intermediate_ancestor :
    (Node.applyUnions hostNodes depth3Calls).map (fun s =>
      ((Node.root s 7).1, trueRoot 8 s 7, (s (Node.root s 7).1).parent))
      = some (4, 0, 0) := by decide

/-- C2.  The claim states that after any sequence of unions,
`find(A) == find(B)` iff A and B were connected by some union call.  The
code violates the right-to-left direction: in the forest produced by
`depth3Calls`, nodes 7 and 0 are in the same tree (a full parent-chain
walk from either reaches root 0), yet `find(7)` returns 4 while the
subsequent `find(0)` returns 0. -/
theorem c2_find_splits_connected_nodes :
    (Node.applyUnions hostNodes depth3Calls).map (fun s =>
      let p := Node.root s 7
      ((p.1, (Node.root p.2 0).1), (trueRoot 8 s 7, trueRoot 8 s 0)))
      = some ((4, 0), (0, 0)) := by decide

/-- C3.  The claim states that `find` is idempotent:
`find(find(X)) == find(X)` in every reachable forest.  The code violates
this: in the forest produced by `depth3Calls`, `find(7)` returns 4, and
applying `find` to that result (in the state the first call left) returns
0 ≠ 4. -/
theorem c3_find_not_idempotent :
    (Node.applyUnions hostNodes depth3Calls).map (fun s =>
      let p := Node.root s 7
      (p.1, (Node.root p.2 p.1).1)) = some (4, 0) := by decide

/-- C4, counterexample.  The claim states that `union(A, B)` is a no-op —
state unchanged and the distinct-roots assertion silent — whenever
`find(A) == find(B)`.  In the forest produced by `sameSetCalls`,
`find(3)` and `find(1)` both return 0, yet `union(3, 1)` is not a no-op:
its cheap guard compares the two parent pointers (2 and 0), proceeds, and
the `assert(xroot != yroot)` fires (`isSome = false` encodes the
assertion failure). -/
theorem c4_assert_fires_on_equal_finds :
    (Node.applyUnions hostNodes sameSetCalls).map (fun s =>
      ((Node.root s 3).1, (Node.root s 1).1, (Node.union s 3 1).isSome))
      = some (0, 0, false) := by decide

/-- C4, amended.  `union(x, y)` is a no-op exactly when x and y currently
hold equal parent pointers (not when `find(x) == find(y)`); otherwise it
computes both `_root` results, the distinct-roots assertion fires when
they coincide, and otherwise the one with the smaller tree-size counter
is attached under the one with the larger counter (a tie attaches y's
under x's), whose counter is increased by the smaller one's size:
`Node.union` equals `unionAmendedSpec`, the formalization of that
sentence. -/
theorem c4_union_matches_amended_contract (s : State) (x y : Nat) :
    Node.union s x y = unionAmendedSpec s x y := by
  unfold Node.union unionAmendedSpec
  by_cases h1 : (s x).parent = (s y).parent
  · simp [h1]
  · simp only [if_neg h1]
    by_cases h2 : (Node.root s x).1 = (Node.root (Node.root s x).2 y).1
    · simp [h2]
    · simp only [if_neg h2]
      set s2 := (Node.root (Node.root s x).2 y).2 with hs2
      set xr := (Node.root s x).1 with hxr
      set yr := (Node.root (Node.root s x).2 y).1 with hyr
      by_cases h3 : (s2 xr).tree_size < (s2 yr).tree_size
      · simp only [if_pos h3]
        rw [update_other s2 xr yr _ (Ne.symm h2)]
      · simp only [if_neg h3]
        rw [update_other s2 yr xr _ h2]

/-- C5.  After any sequence of `precede(U, V)` calls on fresh nodes, V
occurs in U's successor list once per `precede(U, V)` call, U occurs in
V's dependent list once per `precede(U, V)` call (so the two lists are
updated together, one appended occurrence per recorded edge), and V's
pending-dependency counter equals the number of calls that named V as
target. -/
theorem c5_precede_edge_and_counter_counts (h : Nat → Handle)
    (calls : List (Nat × Nat)) (u v : Nat) :
    ((Node.applyPrecedes (initState h) calls) u).successors.count v
        = calls.count (u, v) ∧
    ((Node.applyPrecedes (initState h) calls) v).dependents.count u
        = calls.count (u, v) ∧
    ((Node.applyPrecedes (initState h) calls) v).num_dependents
        = (calls.countP (fun c => c.2 == v) : Nat) := by
  have h0 := applyPrecedes_counts calls (initState h) u v
  simpa [initState, initNode] using h0

/-- C6.  For the spec-modelled `claim`: run over any interleaving (any
sequential order `p :: ps` of the atomic test-and-set steps) on a group
whose device id is still the unassigned sentinel, with the first proposal
a real device id, every call returns the same value — the one installed
by the winning first step — the group's device id ends at that value, and
that value is one of the proposals. -/
theorem c6_claim_single_winner (t : Int) (p : Int) (ps : List Int)
    (hp : p ≠ -1) :
    (runClaims { device_id := -1, num_tasks := t } (p :: ps)).1
        = (p :: ps).map (fun _ => p) ∧
    (runClaims { device_id := -1, num_tasks := t } (p :: ps)).2.device_id = p ∧
    p ∈ p :: ps := by
  refine ⟨?_, ?_, List.mem_cons_self p ps⟩ <;>
    simp [runClaims, DeviceGroup.claim,
      runClaims_assigned ps { device_id := p, num_tasks := t } hp]

/-- Witness for C6: two interleaved claims proposing 0 then 1 on an
unassigned group both return 0, and the group's device id ends at 0. -/
theorem c6_claim_single_winner_witness : (0 : Int) ≠ -1 ∧
    ((runClaims { device_id := -1, num_tasks := 0 } ((0 : Int) :: [1])).1
        = ((0 : Int) :: [1]).map (fun _ => (0 : Int)) ∧
      (runClaims { device_id := -1, num_tasks := 0 } ((0 : Int) :: [1])).2.device_id = 0 ∧
      (0 : Int) ∈ (0 : Int) :: [1]) :=
  ⟨by decide, c6_claim_single_winner 0 0 [1] (by decide)⟩

/-- C7.  For every node, exactly one of `is_host`, `is_pull`, `is_push`,
`is_transfer`, `is_kernel` is true, and `is_device` is true exactly when
the active payload kind is Pull, Push, Transfer or Kernel, equivalently
exactly when `is_host` is false. -/
theorem c7_classification_partition (n : NodeData) :
    List.count true
        [Node.is_host n, Node.is_pull n, Node.is_push n,
          Node.is_transfer n, Node.is_kernel n] = 1 ∧
    Node.is_device n = Handle.isDeviceKind n.handle ∧
    Node.is_device n = !Node.is_host n := by
  cases h : n.handle <;>
    simp [Node.is_host, Node.is_pull, Node.is_push, Node.is_transfer,
      Node.is_kernel, Node.is_device, Handle.index, Handle.isDeviceKind, h]

/-- C8.  For three initially-singleton nodes B = 0, C = 1, D = 2, after
`union(B, C)` then `union(C, D)`: `find(B)` and `find(D)` both return 0,
and node 0 — the resulting set's root, being its own parent — carries
tree-size counter 3. -/
theorem c8_union_chain_scenario :
    (Node.applyUnions hostNodes [(0, 1), (1, 2)]).map (fun s =>
      let p := Node.root s 0
      let q := Node.root p.2 2
      (p.1, q.1, (s p.1).tree_size, (s p.1).parent)) = some (0, 0, 3, 0) := by
  decide

/-- C9.  For every node, `dump` writes exactly one declaration line
`p<address>[label="<name-or-address>" ...];` — the node's name when
non-empty, `p<address>` otherwise — with the fill color keyed to the
payload kind (Pull cyan, Push springgreen, Kernel black fill with white
font, Transfer coral, Host unstyled), followed by one edge line
`p<address> -> p<successor-address>;` per successor in successor-list
order: `Node.dump` equals `dumpSpec`, the formalization of that format. -/
theorem c9_dump_matches_spec_format (addr : Nat → String) (s : State) (i : Nat) :
    Node.dump addr s i = dumpSpec addr s i := by
  unfold Node.dump dumpSpec declLine edgeLine
  cases h : (s i).handle <;> by_cases hn : (s i).name = "" <;>
    simp [h, hn, Node.colorAttr, kindColor, Handle.index, String.append_assoc,
      arrow_p_append]

/-- C10.  Frame property of `precede(U, V)` with U ≠ V: V is appended to
U's successor list, U is appended to V's dependent list, V's
pending-dependency counter grows by one, every other node is untouched,
and every other field of U and of V (name, payload, the other adjacency
list, U's own counter, both union-find fields, group and topology
references) keeps its value. -/
theorem c10_precede_frame (s : State) (u v : Nat) (huv : u ≠ v) :
    ((Node.precede s u v) u).successors = (s u).successors ++ [v] ∧
    ((Node.precede s u v) v).dependents = (s v).dependents ++ [u] ∧
    ((Node.precede s u v) v).num_dependents = (s v).num_dependents + 1 ∧
    (∀ w, w ≠ u → w ≠ v → (Node.precede s u v) w = s w) ∧
    ((Node.precede s u v) u).name = (s u).name ∧
    ((Node.precede s u v) u).handle = (s u).handle ∧
    ((Node.precede s u v) u).dependents = (s u).dependents ∧
    ((Node.precede s u v) u).num_dependents = (s u).num_dependents ∧
    ((Node.precede s u v) u).parent = (s u).parent ∧
    ((Node.precede s u v) u).tree_size = (s u).tree_size ∧
    ((Node.precede s u v) u).group = (s u).group ∧
    ((Node.precede s u v) u).topology = (s u).topology ∧
    ((Node.precede s u v) v).name = (s v).name ∧
    ((Node.precede s u v) v).handle = (s v).handle ∧
    ((Node.precede s u v) v).successors = (s v).successors ∧
    ((Node.precede s u v) v).parent = (s v).parent ∧
    ((Node.precede s u v) v).tree_size = (s v).tree_size ∧
    ((Node.precede s u v) v).group = (s v).group ∧
    ((Node.precede s u v) v).topology = (s v).topology := by
  refine ⟨?_, ?_, ?_, ?_, ?_, ?_, ?_, ?_, ?_, ?_, ?_, ?_, ?_, ?_, ?_, ?_, ?_, ?_, ?_⟩ <;>
    try intro w hw1 hw2
  all_goals rw [precede_apply] <;> simp_all [Ne.symm huv]

/-- Witness for C10: `precede(0, 1)` on fresh nodes appends 1 to node 0's
successor list, appends 0 to node 1's dependent list, bumps node 1's
counter, and leaves node 2 untouched. -/
theorem c10_precede_frame_witness : (0 : Nat) ≠ 1 ∧
    ((Node.precede hostNodes 0 1) 0).successors = (hostNodes 0).successors ++ [1] ∧
    ((Node.precede hostNodes 0 1) 1).dependents = (hostNodes 1).dependents ++ [0] ∧
    ((Node.precede hostNodes 0 1) 1).num_dependents = (hostNodes 1).num_dependents + 1 ∧
    (Node.precede hostNodes 0 1) 2 = hostNodes 2 :=
  ⟨by decide,
    (c10_precede_frame hostNodes 0 1 (by decide)).1,
    (c10_precede_frame hostNodes 0 1 (by decide)).2.1,
    (c10_precede_frame hostNodes 0 1 (by decide)).2.2.1,
    (c10_precede_frame hostNodes 0 1 (by decide)).2.2.2.1 2 (by decide) (by decide)⟩

end Heteroflow
